import Mathlib

/-!
# Verification of the Drop2Smart ML service core

Shallow embedding of the soil-texture classification, feature
normalization, synthetic data generation, prediction clamping, risk
annotation, groundwater risk analysis and batch-prediction logic of the
`ml_service` package, together with theorems settling the specification
claims.

Percentages, Ksat values and confidence scores are modelled as
rationals; raw upstream soil-property values as `ℤ`; labels as
`String`.  The opaque XGBoost regressor is modelled as an arbitrary
function from the feature vector to a rational, exactly as the spec
treats it (an opaque `predict` capability); the upstream SoilGrids
provider is modelled by the per-field outcome of each request.
-/

namespace Drop2Smart

/-- A texture classification result: (label, encoded value), as the
Python `_classify_soil_texture` functions return `Tuple[str, int]`. -/
abbrev TextureResult := String × ℤ

/-- Look a label up in an association-list encoding table, with default
`-1`: this models `encoding.get(texture_name, encoding["Unknown"])`,
since every table in the source maps `"Unknown"` to `-1`. -/
def lookupTexture (table : List (String × ℤ)) (name : String) : ℤ :=
  match table.find? (fun p => p.1 == name) with
  | some p => p.2
  | none => -1

/-- The five-element feature vector (Clay, Silt, Sand, Texture Encoded,
OC) in the order the `features` DataFrame is built in
`SoilPredictor.predict`. -/
abbrev FeatureVector := ℚ × ℚ × ℚ × ℤ × ℚ

/-- The four soil properties queried from SoilGrids
(`properties_to_query` in both fetch implementations). -/
inductive SoilProperty where
  | sand
  | silt
  | clay
  | ocd
deriving DecidableEq

/-- The property name string used as dictionary key in the Python
code. -/
def SoilProperty.name : SoilProperty → String
  | .sand => "sand"
  | .silt => "silt"
  | .clay => "clay"
  | .ocd => "ocd"

/-- Outcome of one per-property SoilGrids request, as distinguished by
the fetch code: status 200 with a non-null mean, status 200 with a null
mean, status 200 with a malformed body (`KeyError`/`IndexError`), or a
non-200 status. -/
inductive UpstreamOutcome where
  | ok (v : ℤ)
  | nullMean
  | malformed
  | httpFailure (status : ℕ)
deriving DecidableEq

namespace SoilPredictor

/-- `SoilPredictor.texture_encoding` from `soil_predictor.py`, in
insertion order.  Note: it has no `"SILT"` entry, and its `"SILTY
LOAM"` entry is unmatched by the classifier (whose rule 5 label is
`"SILT LOAM"`). -/
def texture_encoding : List (String × ℤ) :=
  [("SANDY LOAMY", 6), ("SANDY CLAY", 5), ("LOAM", 2), ("CLAY LOAM", 1),
   ("CLAY", 0), ("SILTY LOAM", 9), ("LOAMY SAND", 3), ("SILTY CLAY LOAM", 8),
   ("SILTY CLAY", 7), ("SAND", 4), ("SANDY LOAM", 10), ("SANDY CLAY LOAM", 11),
   ("Unknown", -1)]

/-- The `texture_name` cascade of `SoilPredictor._classify_soil_texture`
(`soil_predictor.py` lines 172-195): ordered rules, first match wins.
Rule 5 produces `"SILT LOAM"`. -/
def texture_name (sand_pct silt_pct clay_pct : ℚ) : String :=
  if silt_pct + clay_pct < 20 then "SAND"
  else if sand_pct > 52 ∧ silt_pct < 50 ∧ clay_pct < 20 then "LOAMY SAND"
  else if sand_pct > 52 ∧ (silt_pct ≥ 50 ∨ (silt_pct < 50 ∧ clay_pct ≥ 20)) then "SANDY LOAM"
  else if silt_pct ≥ 80 ∧ clay_pct < 12 then "SILT"
  else if silt_pct ≥ 50 ∧ (clay_pct ≥ 12 ∧ clay_pct < 27) then "SILT LOAM"
  else if clay_pct ≥ 27 ∧ sand_pct ≤ 45 then "CLAY LOAM"
  else if clay_pct ≥ 20 ∧ clay_pct < 27 ∧ silt_pct ≥ 28 ∧ silt_pct < 50 ∧ sand_pct ≤ 52 then "LOAM"
  else if clay_pct ≥ 35 ∧ sand_pct > 45 then "SANDY CLAY"
  else if clay_pct ≥ 35 ∧ silt_pct > 40 then "SILTY CLAY"
  else if clay_pct ≥ 27 ∧ clay_pct < 40 ∧ sand_pct > 45 then "SANDY CLAY LOAM"
  else if clay_pct ≥ 27 ∧ clay_pct < 40 ∧ silt_pct > 28 ∧ sand_pct ≤ 45 then "SILTY CLAY LOAM"
  else "Unknown"

/-- `SoilPredictor._classify_soil_texture`: the cascade followed by a
lookup in `SoilPredictor.texture_encoding`. -/
def classifySoilTexture (sand_pct silt_pct clay_pct : ℚ) : TextureResult :=
  (texture_name sand_pct silt_pct clay_pct,
   lookupTexture texture_encoding (texture_name sand_pct silt_pct clay_pct))

/-- `SoilPredictor._get_texture_name`: scan `texture_encoding` in
insertion order for the first entry with the given encoded value,
defaulting to `"Unknown"`. -/
def getTextureName (encoded_value : ℤ) : String :=
  match texture_encoding.find? (fun p => p.2 == encoded_value) with
  | some p => p.1
  | none => "Unknown"

/-- Per-field substitution of `SoilPredictor.get_soil_properties`
(`soil_predictor.py` lines 222-236): a non-null mean is stored as is;
a null mean, a malformed body, and a non-200 status each store `0`. -/
def fieldResult : UpstreamOutcome → ℤ
  | .ok v => v
  | .nullMean => 0
  | .malformed => 0
  | .httpFailure _ => 0

/-- The default raw dictionary `{'sand': 400, 'silt': 350, 'clay': 250,
'ocd': 15}` substituted wholesale when the whole fetch raises
(`soil_predictor.py` line 241; same literal in `utils.py` lines
67-72). -/
def defaultRaw : SoilProperty → ℤ
  | .sand => 400
  | .silt => 350
  | .clay => 250
  | .ocd => 15

/-- `SoilPredictor.get_soil_properties`, as the resulting
`soil_results` dictionary: `apiCrash` models the `except` branch (the
session itself raising), `resp` gives the outcome of each per-property
request. -/
def getSoilProperties (apiCrash : Bool) (resp : SoilProperty → UpstreamOutcome) :
    SoilProperty → ℤ :=
  if apiCrash then defaultRaw else fun p => fieldResult (resp p)

/-- The model-input record produced by
`SoilPredictor._convert_soilgrids_data`. -/
structure SoilData where
  clay : ℚ
  silt : ℚ
  sand : ℚ
  organic_carbon : ℚ
  texture_encoded : ℤ
deriving DecidableEq

/-- `SoilPredictor._convert_soilgrids_data`: divide sand/silt/clay by 10
(0-1000 scale to percent), multiply ocd by 0.001, classify the texture.
The `.get(..., default)` fallbacks of the Python dict reads never fire
because `get_soil_properties` always sets all four keys. -/
def convertSoilgridsData (soil_results : SoilProperty → ℤ) : SoilData :=
  let sand_pct : ℚ := (soil_results .sand : ℚ) / 10
  let silt_pct : ℚ := (soil_results .silt : ℚ) / 10
  let clay_pct : ℚ := (soil_results .clay : ℚ) / 10
  let oc_value : ℚ := (soil_results .ocd : ℚ) * (1 / 1000)
  { clay := clay_pct
    silt := silt_pct
    sand := sand_pct
    organic_carbon := oc_value
    texture_encoded := (classifySoilTexture sand_pct silt_pct clay_pct).2 }

/-- Python `max` over the three `(name, value)` tuples in
`_analyze_soil`: tuples compare lexicographically, string first; the
second argument replaces the accumulator only when strictly greater. -/
def pyMaxPair (a b : String × ℚ) : String × ℚ :=
  if a.1 < b.1 ∨ (a.1 = b.1 ∧ a.2 < b.2) then b else a

/-- The annotation record returned by `SoilPredictor._analyze_soil`. -/
structure SoilAnalysis where
  primarySoilType : String
  infiltrationCategory : String
  suitabilityScore : ℚ
  suitability : String
  texture_class : String
deriving DecidableEq

/-- `SoilPredictor._analyze_soil`: primary component by Python tuple
`max`, the infiltration ladder (`>100`, `>50`, `>20`), the suitability
score `min(100, max(0, ksat/150*100))` (the rounding to one decimal is
not modelled), and the decoded texture label.  -/
def analyzeSoil (ksat_value : ℚ) (soil_data : SoilData) : SoilAnalysis :=
  let max_component :=
    (pyMaxPair (pyMaxPair ("Clay", soil_data.clay) ("Silt", soil_data.silt))
      ("Sand", soil_data.sand)).1
  let infiltration_category :=
    if ksat_value > 100 then "High"
    else if ksat_value > 50 then "Moderate"
    else if ksat_value > 20 then "Low"
    else "Very Low"
  let suitability :=
    if ksat_value > 100 then "Excellent for infiltration"
    else if ksat_value > 50 then "Good for infiltration"
    else if ksat_value > 20 then "Fair for infiltration"
    else "Poor for infiltration"
  { primarySoilType := max_component
    infiltrationCategory := infiltration_category
    suitabilityScore := min 100 (max 0 (ksat_value / 150 * 100))
    suitability := suitability
    texture_class := getTextureName soil_data.texture_encoded }

/-- The result record of `SoilPredictor.predict` (the `model_info` and
timestamp plumbing is not modelled). -/
structure PredictResult where
  ksat : ℚ
  confidence : ℚ
  soil_properties : SoilData
  soil_analysis : SoilAnalysis
deriving DecidableEq

/-- `SoilPredictor.predict` on the successful path: fetch soil
properties, convert them, build the feature vector in the training
order, run the opaque regressor `model`, clamp the raw prediction with
`max(1.0, min(300.0, ·))`, annotate, and compute the confidence
heuristic `min(0.9, max(0.5, 0.8 - |ksat - 50| / 200))`. -/
def predict (model : FeatureVector → ℚ) (apiCrash : Bool)
    (resp : SoilProperty → UpstreamOutcome) : PredictResult :=
  let soil_results := getSoilProperties apiCrash resp
  let soil_data := convertSoilgridsData soil_results
  let features : FeatureVector :=
    (soil_data.clay, soil_data.silt, soil_data.sand,
     soil_data.texture_encoded, soil_data.organic_carbon)
  let ksat_prediction := max 1 (min 300 (model features))
  { ksat := ksat_prediction
    confidence := min (9/10) (max (1/2) (8/10 - |ksat_prediction - 50| / 200))
    soil_properties := soil_data
    soil_analysis := analyzeSoil ksat_prediction soil_data }

end SoilPredictor

namespace KsatModelTrainer

/-- `KsatModelTrainer.texture_encoding` from `ksat_model_trainer.py`.
Unlike the serving table it also maps `"SILT"` to `12`. -/
def texture_encoding : List (String × ℤ) :=
  [("SANDY LOAMY", 6), ("SANDY CLAY", 5), ("LOAM", 2), ("CLAY LOAM", 1),
   ("CLAY", 0), ("SILTY LOAM", 9), ("LOAMY SAND", 3), ("SILTY CLAY LOAM", 8),
   ("SILTY CLAY", 7), ("SAND", 4), ("SANDY LOAM", 10), ("SANDY CLAY LOAM", 11),
   ("SILT", 12), ("Unknown", -1)]

/-- The `texture_name` cascade of
`KsatModelTrainer._classify_soil_texture` (`ksat_model_trainer.py`
lines 216-239): same conditions as the serving cascade, but rule 5
produces `"SILTY LOAM"`. -/
def texture_name (sand_pct silt_pct clay_pct : ℚ) : String :=
  if silt_pct + clay_pct < 20 then "SAND"
  else if sand_pct > 52 ∧ silt_pct < 50 ∧ clay_pct < 20 then "LOAMY SAND"
  else if sand_pct > 52 ∧ (silt_pct ≥ 50 ∨ (silt_pct < 50 ∧ clay_pct ≥ 20)) then "SANDY LOAM"
  else if silt_pct ≥ 80 ∧ clay_pct < 12 then "SILT"
  else if silt_pct ≥ 50 ∧ (clay_pct ≥ 12 ∧ clay_pct < 27) then "SILTY LOAM"
  else if clay_pct ≥ 27 ∧ sand_pct ≤ 45 then "CLAY LOAM"
  else if clay_pct ≥ 20 ∧ clay_pct < 27 ∧ silt_pct ≥ 28 ∧ silt_pct < 50 ∧ sand_pct ≤ 52 then "LOAM"
  else if clay_pct ≥ 35 ∧ sand_pct > 45 then "SANDY CLAY"
  else if clay_pct ≥ 35 ∧ silt_pct > 40 then "SILTY CLAY"
  else if clay_pct ≥ 27 ∧ clay_pct < 40 ∧ sand_pct > 45 then "SANDY CLAY LOAM"
  else if clay_pct ≥ 27 ∧ clay_pct < 40 ∧ silt_pct > 28 ∧ sand_pct ≤ 45 then "SILTY CLAY LOAM"
  else "Unknown"

/-- `KsatModelTrainer._classify_soil_texture`: the trainer cascade
followed by a lookup in the trainer's table. -/
def classifySoilTexture (sand_pct silt_pct clay_pct : ℚ) : TextureResult :=
  (texture_name sand_pct silt_pct clay_pct,
   lookupTexture texture_encoding (texture_name sand_pct silt_pct clay_pct))

/-- One row of the synthetic training set built by
`KsatModelTrainer._generate_synthetic_data`. -/
structure SyntheticSample where
  Clay : ℚ
  Silt : ℚ
  Sand : ℚ
  TextureEncoded : ℤ
  Texture : String
  OC : ℚ
  Ksat : ℚ
deriving DecidableEq

/-- The random draws consumed by one synthetic sample, in the order
the generator consumes them: a Beta(2,5) proportion for clay, a
Beta(2,2) proportion for sand, a lognormal(0.5, 0.8) organic-carbon
draw, and a standard-normal draw for the Ksat noise. -/
structure SampleDraws where
  beta_2_5 : ℚ
  beta_2_2 : ℚ
  lognormal : ℚ
  gauss : ℚ
deriving DecidableEq

/-- The seeded random stream driving `_generate_synthetic_data`: with
a fixed seed, NumPy's generator yields one determined draw sequence,
modelled as the per-index draws. -/
def RandomStream := ℕ → SampleDraws

/-- The sample computation of `_generate_synthetic_data` on the draws
of index `i`: clay and sand from scaled Beta draws, silt as the
100-complement, renormalization to sum 100, texture via the trainer's
own classifier, organic carbon clipped to `[0.1, 15.0]`, base Ksat
`100 + 2.5*sand - 2.0*clay - 0.5*OC`, the texture multiplier, Gaussian
noise of scale `0.15 * base`, the `max(0.5, ·)` floor, and the final
clip to `[0.5, 350]`. -/
def syntheticSample (d : SampleDraws) : SyntheticSample :=
  let clay0 := d.beta_2_5 * 60
  let sand0 := d.beta_2_2 * 85
  let silt0 := 100 - clay0 - sand0
  let total := clay0 + sand0 + silt0
  let clay := clay0 / total * 100
  let silt := silt0 / total * 100
  let sand := sand0 / total * 100
  let t := classifySoilTexture sand silt clay
  let organic_carbon := min 15 (max (1/10) d.lognormal)
  let base0 := 100 + sand * (5/2) + clay * (-2) + organic_carbon * (-1/2)
  let base_ksat :=
    if t.1 = "SAND" ∨ t.1 = "LOAMY SAND" then base0 * (9/5)
    else if t.1 = "SANDY LOAM" ∨ t.1 = "LOAM" then base0 * (6/5)
    else if t.1 = "CLAY" ∨ t.1 = "SILTY CLAY" then base0 * (3/10)
    else base0
  let noise := d.gauss * (base_ksat * (15/100))
  let ksat := min 350 (max (1/2) (max (1/2) (base_ksat + noise)))
  { Clay := clay, Silt := silt, Sand := sand, TextureEncoded := t.2,
    Texture := t.1, OC := organic_carbon, Ksat := ksat }

/-- `KsatModelTrainer._generate_synthetic_data`: the list of `n`
samples produced from the seeded stream. -/
def generateSyntheticData (n_samples : ℕ) (rng : RandomStream) :
    List SyntheticSample :=
  (List.range n_samples).map (fun i => syntheticSample (rng i))

end KsatModelTrainer

namespace Utils

/-- The `texture_encoding` dictionary local to `classify_soil_texture`
in `utils.py`; identical to the serving table of `soil_predictor.py`. -/
def texture_encoding : List (String × ℤ) :=
  [("SANDY LOAMY", 6), ("SANDY CLAY", 5), ("LOAM", 2), ("CLAY LOAM", 1),
   ("CLAY", 0), ("SILTY LOAM", 9), ("LOAMY SAND", 3), ("SILTY CLAY LOAM", 8),
   ("SILTY CLAY", 7), ("SAND", 4), ("SANDY LOAM", 10), ("SANDY CLAY LOAM", 11),
   ("Unknown", -1)]

/-- The `texture_name` cascade of `classify_soil_texture` in
`utils.py` (lines 109-132); character for character the serving
cascade, rule 5 label `"SILT LOAM"` included. -/
def texture_name (sand_pct silt_pct clay_pct : ℚ) : String :=
  if silt_pct + clay_pct < 20 then "SAND"
  else if sand_pct > 52 ∧ silt_pct < 50 ∧ clay_pct < 20 then "LOAMY SAND"
  else if sand_pct > 52 ∧ (silt_pct ≥ 50 ∨ (silt_pct < 50 ∧ clay_pct ≥ 20)) then "SANDY LOAM"
  else if silt_pct ≥ 80 ∧ clay_pct < 12 then "SILT"
  else if silt_pct ≥ 50 ∧ (clay_pct ≥ 12 ∧ clay_pct < 27) then "SILT LOAM"
  else if clay_pct ≥ 27 ∧ sand_pct ≤ 45 then "CLAY LOAM"
  else if clay_pct ≥ 20 ∧ clay_pct < 27 ∧ silt_pct ≥ 28 ∧ silt_pct < 50 ∧ sand_pct ≤ 52 then "LOAM"
  else if clay_pct ≥ 35 ∧ sand_pct > 45 then "SANDY CLAY"
  else if clay_pct ≥ 35 ∧ silt_pct > 40 then "SILTY CLAY"
  else if clay_pct ≥ 27 ∧ clay_pct < 40 ∧ sand_pct > 45 then "SANDY CLAY LOAM"
  else if clay_pct ≥ 27 ∧ clay_pct < 40 ∧ silt_pct > 28 ∧ sand_pct ≤ 45 then "SILTY CLAY LOAM"
  else "Unknown"

/-- `classify_soil_texture` from `utils.py`. -/
def classify_soil_texture (sand_pct silt_pct clay_pct : ℚ) : TextureResult :=
  (texture_name sand_pct silt_pct clay_pct,
   lookupTexture texture_encoding (texture_name sand_pct silt_pct clay_pct))

/-- `get_default_value` from `utils.py`: the documented default raw
values, `0` for an unknown property name. -/
def get_default_value (property_name : String) : ℤ :=
  if property_name = "sand" then 400
  else if property_name = "silt" then 350
  else if property_name = "clay" then 250
  else if property_name = "ocd" then 15
  else 0

/-- `get_soil_properties` from `utils.py`: unlike the predictor's
method, a null mean, malformed body, or non-200 status for one
property stores `get_default_value` for that property; the wholesale
`except` branch stores the same default dictionary for all four. -/
def get_soil_properties (apiCrash : Bool) (resp : SoilProperty → UpstreamOutcome) :
    SoilProperty → ℤ :=
  if apiCrash then Drop2Smart.SoilPredictor.defaultRaw
  else fun p =>
    match resp p with
    | .ok v => v
    | _ => get_default_value p.name

/-- `get_ksat_category` from `utils.py`: the finer-grained Ksat
ladder. -/
def get_ksat_category (ksat : ℚ) : String :=
  if ksat < 5 then "Very Slow"
  else if ksat < 20 then "Slow"
  else if ksat < 60 then "Moderate"
  else if ksat < 150 then "Fast"
  else "Very Fast"

/-- The record returned by `format_soil_analysis` in `utils.py`. -/
structure SoilAnalysisFormat where
  infiltration_rate : String
  suitability : String
  recommendation : String
  texture_class : String
  ksat_category : String
deriving DecidableEq

/-- `format_soil_analysis` from `utils.py`: the infiltration ladder
(`>100`, `>50`, `>20`) with its fixed suitability and recommendation
strings, plus the Ksat category. -/
def format_soil_analysis (ksat : ℚ) (texture_class : String) : SoilAnalysisFormat :=
  if ksat > 100 then
    { infiltration_rate := "High"
      suitability := "Excellent for rainwater infiltration"
      recommendation := "Ideal for recharge pits and infiltration basins"
      texture_class := texture_class
      ksat_category := get_ksat_category ksat }
  else if ksat > 50 then
    { infiltration_rate := "Moderate"
      suitability := "Good for rainwater infiltration"
      recommendation := "Suitable for most infiltration structures"
      texture_class := texture_class
      ksat_category := get_ksat_category ksat }
  else if ksat > 20 then
    { infiltration_rate := "Low"
      suitability := "Fair for rainwater infiltration"
      recommendation := "May require enhanced infiltration methods"
      texture_class := texture_class
      ksat_category := get_ksat_category ksat }
  else
    { infiltration_rate := "Very Low"
      suitability := "Poor for rainwater infiltration"
      recommendation := "Consider alternative drainage solutions"
      texture_class := texture_class
      ksat_category := get_ksat_category ksat }

end Utils

/-- The ordering of infiltration tiers stated by the spec:
Very Low < Low < Moderate < High. -/
def tierRank : String → ℕ
  | "Low" => 1
  | "Moderate" => 2
  | "High" => 3
  | _ => 0

namespace GroundwaterService

/-- The `GroundwaterData` dataclass of `groundwater_service.py`. -/
structure GroundwaterData where
  annual_replenishable_gw : ℚ
  net_availability : ℚ
  total_draft : ℚ
  stage_percent : ℚ
  category : String
  location : String
  district : String
  state : String
deriving DecidableEq

/-- The risk fields of the `analyze_location_risk` result. -/
structure RiskAnalysis where
  risk_level : String
  risk_score : ℤ
  utilization_ratio : ℚ
  recommendation : String
deriving DecidableEq

/-- The `suitability_for_recharge` fields of the
`analyze_location_risk` result (the free-text `notes`, which embed
decimal-formatted numbers, are not modelled). -/
structure RechargeSuitability where
  suitable : Bool
  priority : String
deriving DecidableEq

/-- The result of `analyze_location_risk` for a found record (the
not-found branch returns an error dictionary instead and is outside
every claim). -/
structure LocationRiskResult where
  category : String
  stage_percent : ℚ
  deficit_surplus : ℚ
  risk_analysis : RiskAnalysis
  suitability_for_recharge : RechargeSuitability
deriving DecidableEq

/-- `GroundwaterService._get_recharge_priority`: the `priority_map`
lookup with default `"Unknown"`. -/
def getRechargePriority (category : String) : String :=
  if category = "Over-exploited" then "Critical - Immediate action required"
  else if category = "Critical" then "High - Action recommended"
  else if category = "Semi-critical" then "Medium - Preventive measures"
  else if category = "Safe" then "Low - Maintenance and monitoring"
  else "Unknown"

/-- `GroundwaterService.analyze_location_risk` on a found record
(`groundwater_service.py` lines 222-275): the category cascade for
risk level/score/recommendation, the utilization ratio, the
deficit/surplus, and the recharge-suitability block whose `suitable`
flag is `category in ['Safe', 'Semi-critical', 'Critical']`. -/
def analyzeLocationRisk (data : GroundwaterData) : LocationRiskResult :=
  let risk :=
    if data.category = "Over-exploited" then
      ("High", (90 : ℤ),
       "Critical: Immediate water conservation and recharge measures required")
    else if data.category = "Critical" then
      ("Moderate-High", (75 : ℤ),
       "Implement water conservation and explore recharge options")
    else if data.category = "Semi-critical" then
      ("Moderate", (60 : ℤ),
       "Monitor usage and consider preventive recharge measures")
    else if data.category = "Safe" then
      ("Low", (30 : ℤ),
       "Continue monitoring and maintain sustainable practices")
    else
      ("Unknown", (50 : ℤ), "Data unavailable or incomplete")
  { category := data.category
    stage_percent := data.stage_percent
    deficit_surplus := data.net_availability - data.total_draft
    risk_analysis :=
      { risk_level := risk.1
        risk_score := risk.2.1
        utilization_ratio := data.stage_percent / 100
        recommendation := risk.2.2 }
    suitability_for_recharge :=
      { suitable := decide (data.category ∈ ["Safe", "Semi-critical", "Critical"])
        priority := getRechargePriority data.category } }

end GroundwaterService

namespace Main

/-- A request coordinate, as validated by `PredictionRequest`. -/
structure Coord where
  latitude : ℚ
  longitude : ℚ
deriving DecidableEq

/-- The summary block of the batch endpoint (its Ksat statistics are
not modelled). -/
structure BatchSummary where
  total_requested : ℕ
  successful_predictions : ℕ
  failed_predictions : ℕ
deriving DecidableEq

/-- The aggregate returned by `batch_predict_ksat` on the non-rejected
path: index-tagged successes, index-tagged failures, and the summary. -/
structure BatchResult (α : Type) where
  predictions : List (ℕ × α)
  failed_predictions : List (ℕ × String)
  summary : BatchSummary

/-- The `for i, coord in enumerate(coordinates)` loop of
`batch_predict_ksat` (`main.py` lines 194-216): each item is predicted
independently; a success is appended to `predictions` with its index, a
raised exception is caught and appended to `failed_predictions` with
its index, and the loop continues either way. -/
def batchLoop (predictOne : Coord → Except String α) :
    ℕ → List Coord → List (ℕ × α) × List (ℕ × String)
  | _, [] => ([], [])
  | i, coord :: rest =>
    match predictOne coord with
    | .ok r =>
      ((i, r) :: (batchLoop predictOne (i + 1) rest).1,
       (batchLoop predictOne (i + 1) rest).2)
    | .error e =>
      ((batchLoop predictOne (i + 1) rest).1,
       (i, e) :: (batchLoop predictOne (i + 1) rest).2)

/-- `batch_predict_ksat` from `main.py`: more than 100 coordinates are
rejected with HTTP status 400 before any prediction runs; otherwise the
items are processed by the loop and aggregated, successes and failures
separately.  The per-item predictor is opaque, as the spec treats the
serving stack. -/
def batchPredictKsat (predictOne : Coord → Except String α)
    (coordinates : List Coord) : Except ℕ (BatchResult α) :=
  if 100 < coordinates.length then .error 400
  else
    let r := batchLoop predictOne 0 coordinates
    .ok { predictions := r.1
          failed_predictions := r.2
          summary :=
            { total_requested := coordinates.length
              successful_predictions := r.1.length
              failed_predictions := r.2.length } }

end Main

end Drop2Smart

namespace Drop2Smart

set_option maxHeartbeats 1000000 in
/-- Case analysis on the two cascades at once: both evaluate the same
conditions in the same order, and their branch labels agree except at
rule 5 (`"SILT LOAM"` serving vs `"SILTY LOAM"` training). -/
theorem texture_name_cases (s si c : ℚ) (P : String → String → Prop)
    (h1 : P "SAND" "SAND") (h2 : P "LOAMY SAND" "LOAMY SAND")
    (h3 : P "SANDY LOAM" "SANDY LOAM") (h4 : P "SILT" "SILT")
    (h5 : P "SILT LOAM" "SILTY LOAM") (h6 : P "CLAY LOAM" "CLAY LOAM")
    (h7 : P "LOAM" "LOAM") (h8 : P "SANDY CLAY" "SANDY CLAY")
    (h9 : P "SILTY CLAY" "SILTY CLAY")
    (h10 : P "SANDY CLAY LOAM" "SANDY CLAY LOAM")
    (h11 : P "SILTY CLAY LOAM" "SILTY CLAY LOAM")
    (h12 : P "Unknown" "Unknown") :
    P (SoilPredictor.texture_name s si c) (KsatModelTrainer.texture_name s si c) := by
  unfold SoilPredictor.texture_name KsatModelTrainer.texture_name
  by_cases hc1 : si + c < 20
  · simpa only [if_pos hc1] using h1
  simp only [if_neg hc1]
  by_cases hc2 : s > 52 ∧ si < 50 ∧ c < 20
  · simpa only [if_pos hc2] using h2
  simp only [if_neg hc2]
  by_cases hc3 : s > 52 ∧ (si ≥ 50 ∨ (si < 50 ∧ c ≥ 20))
  · simpa only [if_pos hc3] using h3
  simp only [if_neg hc3]
  by_cases hc4 : si ≥ 80 ∧ c < 12
  · simpa only [if_pos hc4] using h4
  simp only [if_neg hc4]
  by_cases hc5 : si ≥ 50 ∧ (c ≥ 12 ∧ c < 27)
  · simpa only [if_pos hc5] using h5
  simp only [if_neg hc5]
  by_cases hc6 : c ≥ 27 ∧ s ≤ 45
  · simpa only [if_pos hc6] using h6
  simp only [if_neg hc6]
  by_cases hc7 : c ≥ 20 ∧ c < 27 ∧ si ≥ 28 ∧ si < 50 ∧ s ≤ 52
  · simpa only [if_pos hc7] using h7
  simp only [if_neg hc7]
  by_cases hc8 : c ≥ 35 ∧ s > 45
  · simpa only [if_pos hc8] using h8
  simp only [if_neg hc8]
  by_cases hc9 : c ≥ 35 ∧ si > 40
  · simpa only [if_pos hc9] using h9
  simp only [if_neg hc9]
  by_cases hc10 : c ≥ 27 ∧ c < 40 ∧ s > 45
  · simpa only [if_pos hc10] using h10
  simp only [if_neg hc10]
  by_cases hc11 : c ≥ 27 ∧ c < 40 ∧ si > 28 ∧ s ≤ 45
  · simpa only [if_pos hc11] using h11
  simp only [if_neg hc11]
  exact h12

/-- The utils cascade is definitionally the serving cascade. -/
theorem Utils.texture_name_eq_serving :
    Utils.texture_name = SoilPredictor.texture_name := rfl

/-- The utils classifier is definitionally the serving classifier
(same cascade, same table). -/
theorem Utils.classify_eq_serving :
    Utils.classify_soil_texture = SoilPredictor.classifySoilTexture := rfl

/-- Claim C1 (amended): the training and serving classification
routines agree on the (label, code) pair on every input whose training
label is neither `SILT` nor `SILTY LOAM`; where the training label is
`SILT` both label it `SILT` but encode it 12 (training) versus -1
(serving, whose table lacks a SILT entry), and where the training
label is `SILTY LOAM` (code 9) the serving routine returns
`("SILT LOAM", -1)`. -/
theorem claim1_train_serve_classification (s si c : ℚ) :
    ((KsatModelTrainer.classifySoilTexture s si c).1 ≠ "SILT" →
      (KsatModelTrainer.classifySoilTexture s si c).1 ≠ "SILTY LOAM" →
      KsatModelTrainer.classifySoilTexture s si c =
        SoilPredictor.classifySoilTexture s si c) ∧
    ((KsatModelTrainer.classifySoilTexture s si c).1 = "SILT" →
      (KsatModelTrainer.classifySoilTexture s si c).2 = 12 ∧
      SoilPredictor.classifySoilTexture s si c = ("SILT", -1)) ∧
    ((KsatModelTrainer.classifySoilTexture s si c).1 = "SILTY LOAM" →
      KsatModelTrainer.classifySoilTexture s si c = ("SILTY LOAM", 9) ∧
      SoilPredictor.classifySoilTexture s si c = ("SILT LOAM", -1)) := by
  unfold KsatModelTrainer.classifySoilTexture SoilPredictor.classifySoilTexture
  exact texture_name_cases s si c
    (fun p t =>
      ((t ≠ "SILT" → t ≠ "SILTY LOAM" →
        (t, lookupTexture KsatModelTrainer.texture_encoding t) =
          (p, lookupTexture SoilPredictor.texture_encoding p)) ∧
       (t = "SILT" →
        lookupTexture KsatModelTrainer.texture_encoding t = 12 ∧
        (p, lookupTexture SoilPredictor.texture_encoding p) = ("SILT", -1)) ∧
       (t = "SILTY LOAM" →
        (t, lookupTexture KsatModelTrainer.texture_encoding t) = ("SILTY LOAM", 9) ∧
        (p, lookupTexture SoilPredictor.texture_encoding p) = ("SILT LOAM", -1))))
    (by decide) (by decide) (by decide) (by decide) (by decide) (by decide)
    (by decide) (by decide) (by decide) (by decide) (by decide) (by decide)

/-- Claim C1 counterexample: at sand=20, silt=60, clay=20 the training
routine returns ("SILTY LOAM", 9) while the serving routine returns
("SILT LOAM", -1) — the two paths do not return the same pair. -/
theorem claim1_counterexample :
    KsatModelTrainer.classifySoilTexture 20 60 20 = ("SILTY LOAM", 9) ∧
    SoilPredictor.classifySoilTexture 20 60 20 = ("SILT LOAM", -1) ∧
    KsatModelTrainer.classifySoilTexture 20 60 20 ≠
      SoilPredictor.classifySoilTexture 20 60 20 := by
  refine ⟨?_, ?_, ?_⟩ <;>
    (norm_num [KsatModelTrainer.classifySoilTexture, SoilPredictor.classifySoilTexture,
       KsatModelTrainer.texture_name, SoilPredictor.texture_name]
     decide)

/-- Claim C1 witness: on a plain sand input the two routines agree. -/
theorem claim1_witness :
    KsatModelTrainer.classifySoilTexture 90 5 5 =
      SoilPredictor.classifySoilTexture 90 5 5 := by
  refine (claim1_train_serve_classification 90 5 5).1 ?_ ?_ <;>
    (norm_num [KsatModelTrainer.classifySoilTexture, KsatModelTrainer.texture_name]
     decide)

end Drop2Smart

namespace Drop2Smart

/-- Claim C3: for every texture label in the serving path's encoding
table, decoding its encoded value with `_get_texture_name` returns the
label again (the codes in the table are pairwise distinct and the
first-match scan finds the entry); and any label absent from the table
encodes to the Unknown code -1. -/
theorem claim3_encoding_round_trip :
    (∀ p ∈ SoilPredictor.texture_encoding,
      SoilPredictor.getTextureName
        (lookupTexture SoilPredictor.texture_encoding p.1) = p.1) ∧
    (∀ name : String,
      SoilPredictor.texture_encoding.find? (fun q => q.1 == name) = none →
      lookupTexture SoilPredictor.texture_encoding name = -1) := by
  constructor
  · decide
  · intro name h
    unfold lookupTexture
    rw [h]

/-- Claim C3 witness: the round trip at the label "SAND" (code 4), and
the Unknown code for a label outside the table. -/
theorem claim3_witness :
    SoilPredictor.getTextureName
      (lookupTexture SoilPredictor.texture_encoding "SAND") = "SAND" ∧
    lookupTexture SoilPredictor.texture_encoding "GRAVEL" = -1 :=
  ⟨claim3_encoding_round_trip.1 ("SAND", 4) (by decide),
   claim3_encoding_round_trip.2 "GRAVEL" (by decide)⟩

/-- Codes produced by the serving classifier stay in [-1, 12]. -/
theorem SoilPredictor.classify_code_bounds (s si c : ℚ) :
    -1 ≤ (SoilPredictor.classifySoilTexture s si c).2 ∧
    (SoilPredictor.classifySoilTexture s si c).2 ≤ 12 := by
  unfold SoilPredictor.classifySoilTexture
  exact texture_name_cases s si c
    (fun p _ => -1 ≤ lookupTexture SoilPredictor.texture_encoding p ∧
      lookupTexture SoilPredictor.texture_encoding p ≤ 12)
    (by decide) (by decide) (by decide) (by decide) (by decide) (by decide)
    (by decide) (by decide) (by decide) (by decide) (by decide) (by decide)

/-- Whenever silt + clay < 20 the serving classifier answers by the
first rule of the cascade: SAND with code 4. -/
theorem SoilPredictor.classify_first_rule (s si c : ℚ) (h : si + c < 20) :
    SoilPredictor.classifySoilTexture s si c = ("SAND", 4) := by
  unfold SoilPredictor.classifySoilTexture SoilPredictor.texture_name
  rw [if_pos h]
  decide

/-- Claim C4: the classifier is a total ordered cascade on [0,100]³:
every triple yields a code in [-1, 12] (falling through to Unknown,
code -1, at worst), and every triple with silt + clay < 20 matches the
first rule and returns ("SAND", 4) regardless of the sand value — in
both the utils and the serving implementations. -/
theorem claim4_classifier_total (s si c : ℚ)
    (hs : 0 ≤ s ∧ s ≤ 100) (hsi : 0 ≤ si ∧ si ≤ 100) (hc : 0 ≤ c ∧ c ≤ 100) :
    (-1 ≤ (Utils.classify_soil_texture s si c).2 ∧
      (Utils.classify_soil_texture s si c).2 ≤ 12) ∧
    (-1 ≤ (SoilPredictor.classifySoilTexture s si c).2 ∧
      (SoilPredictor.classifySoilTexture s si c).2 ≤ 12) ∧
    (si + c < 20 →
      Utils.classify_soil_texture s si c = ("SAND", 4) ∧
      SoilPredictor.classifySoilTexture s si c = ("SAND", 4)) := by
  have hb := SoilPredictor.classify_code_bounds s si c
  refine ⟨?_, hb, fun h => ⟨?_, SoilPredictor.classify_first_rule s si c h⟩⟩
  · rw [Utils.classify_eq_serving]
    exact hb
  · rw [Utils.classify_eq_serving]
    exact SoilPredictor.classify_first_rule s si c h

/-- Claim C4 witness: sand=90, silt=5, clay=5 lies in [0,100]³,
satisfies silt + clay < 20, and classifies as ("SAND", 4) with a code
inside [-1, 12]. -/
theorem claim4_witness :
    (-1 ≤ (Utils.classify_soil_texture 90 5 5).2 ∧
      (Utils.classify_soil_texture 90 5 5).2 ≤ 12) ∧
    Utils.classify_soil_texture 90 5 5 = ("SAND", 4) ∧
    SoilPredictor.classifySoilTexture 90 5 5 = ("SAND", 4) := by
  have h := claim4_classifier_total 90 5 5 (by norm_num) (by norm_num) (by norm_num)
  exact ⟨h.1, h.2.2 (by norm_num)⟩

/-- Claim C10: no input triple ever classifies as "CLAY" or
"SANDY LOAMY" — in the utils, serving, and training classifiers alike —
so the codes 0 and 6 are never produced, even though every encoding
table contains entries mapping "CLAY" to 0 and "SANDY LOAMY" to 6. -/
theorem claim10_dead_table_entries (s si c : ℚ) :
    ((Utils.classify_soil_texture s si c).1 ≠ "CLAY" ∧
     (Utils.classify_soil_texture s si c).1 ≠ "SANDY LOAMY" ∧
     (Utils.classify_soil_texture s si c).2 ≠ 0 ∧
     (Utils.classify_soil_texture s si c).2 ≠ 6) ∧
    ((SoilPredictor.classifySoilTexture s si c).1 ≠ "CLAY" ∧
     (SoilPredictor.classifySoilTexture s si c).1 ≠ "SANDY LOAMY" ∧
     (SoilPredictor.classifySoilTexture s si c).2 ≠ 0 ∧
     (SoilPredictor.classifySoilTexture s si c).2 ≠ 6) ∧
    ((KsatModelTrainer.classifySoilTexture s si c).1 ≠ "CLAY" ∧
     (KsatModelTrainer.classifySoilTexture s si c).1 ≠ "SANDY LOAMY" ∧
     (KsatModelTrainer.classifySoilTexture s si c).2 ≠ 0 ∧
     (KsatModelTrainer.classifySoilTexture s si c).2 ≠ 6) ∧
    (lookupTexture Utils.texture_encoding "CLAY" = 0 ∧
     lookupTexture Utils.texture_encoding "SANDY LOAMY" = 6 ∧
     lookupTexture SoilPredictor.texture_encoding "CLAY" = 0 ∧
     lookupTexture SoilPredictor.texture_encoding "SANDY LOAMY" = 6 ∧
     lookupTexture KsatModelTrainer.texture_encoding "CLAY" = 0 ∧
     lookupTexture KsatModelTrainer.texture_encoding "SANDY LOAMY" = 6) := by
  have h := texture_name_cases s si c
    (fun p t =>
      (p ≠ "CLAY" ∧ p ≠ "SANDY LOAMY" ∧
       lookupTexture SoilPredictor.texture_encoding p ≠ 0 ∧
       lookupTexture SoilPredictor.texture_encoding p ≠ 6) ∧
      (t ≠ "CLAY" ∧ t ≠ "SANDY LOAMY" ∧
       lookupTexture KsatModelTrainer.texture_encoding t ≠ 0 ∧
       lookupTexture KsatModelTrainer.texture_encoding t ≠ 6))
    (by decide) (by decide) (by decide) (by decide) (by decide) (by decide)
    (by decide) (by decide) (by decide) (by decide) (by decide) (by decide)
  refine ⟨?_, h.1, h.2, by decide⟩
  rw [Utils.classify_eq_serving]
  exact h.1

/-- Claim C10 witness: a loam-textured concrete input classifies away
from the dead labels while the dead table entries are present. -/
theorem claim10_witness :
    (Utils.classify_soil_texture 40 35 25).2 ≠ 0 ∧
    (Utils.classify_soil_texture 40 35 25).2 ≠ 6 ∧
    lookupTexture Utils.texture_encoding "CLAY" = 0 ∧
    lookupTexture Utils.texture_encoding "SANDY LOAMY" = 6 := by
  have h := claim10_dead_table_entries 40 35 25
  exact ⟨h.1.2.2.1, h.1.2.2.2, h.2.2.2.1, h.2.2.2.2.1⟩

end Drop2Smart

namespace Drop2Smart

/-- Claim C5 counterexample: a found record whose category is
"Unknown" (any string outside the four known categories behaves the
same) is marked unsuitable although its category differs from
"Over-exploited" — so `suitable == (category != 'Over-exploited')`
fails on it. -/
theorem claim5_counterexample :
    (GroundwaterService.analyzeLocationRisk
      ⟨10, 8, 9, 50, "Unknown", "Narela", "North Delhi", "Delhi"⟩
      ).suitability_for_recharge.suitable = false ∧
    ("Unknown" : String) ≠ "Over-exploited" := by
  constructor
  · rfl
  · decide

/-- Claim C5 (amended): for every found record, `suitable` equals
membership of the category in {Safe, Semi-critical, Critical}; this
coincides with `category != 'Over-exploited'` exactly on the four
known categories, and an Over-exploited record scores risk 90. -/
theorem claim5_groundwater_suitability (d : GroundwaterService.GroundwaterData) :
    ((GroundwaterService.analyzeLocationRisk d).suitability_for_recharge.suitable = true ↔
      d.category ∈ ["Safe", "Semi-critical", "Critical"]) ∧
    (d.category ∈ ["Safe", "Semi-critical", "Critical", "Over-exploited"] →
      ((GroundwaterService.analyzeLocationRisk d).suitability_for_recharge.suitable = true ↔
        d.category ≠ "Over-exploited")) ∧
    (d.category = "Over-exploited" →
      (GroundwaterService.analyzeLocationRisk d).risk_analysis.risk_score = 90) := by
  refine ⟨?_, ?_, ?_⟩
  · simp [GroundwaterService.analyzeLocationRisk]
  · intro hmem
    simp only [List.mem_cons, List.not_mem_nil, or_false] at hmem
    rcases hmem with h|h|h|h <;>
      simp [GroundwaterService.analyzeLocationRisk, h]
  · intro h
    simp [GroundwaterService.analyzeLocationRisk, h]

/-- Claim C5 witness: a Safe record is suitable, an Over-exploited
record scores 90. -/
theorem claim5_witness :
    (GroundwaterService.analyzeLocationRisk
      ⟨20, 18, 6, 30, "Safe", "Alipur", "North Delhi", "Delhi"⟩
      ).suitability_for_recharge.suitable = true ∧
    (GroundwaterService.analyzeLocationRisk
      ⟨10, 8, 12, 130, "Over-exploited", "Narela", "North Delhi", "Delhi"⟩
      ).risk_analysis.risk_score = 90 :=
  ⟨(claim5_groundwater_suitability
      ⟨20, 18, 6, 30, "Safe", "Alipur", "North Delhi", "Delhi"⟩).1.mpr (by decide),
   (claim5_groundwater_suitability
      ⟨10, 8, 12, 130, "Over-exploited", "Narela", "North Delhi", "Delhi"⟩).2.2 rfl⟩

/-- Claim C6: whatever the opaque regressor outputs and whatever the
upstream returns, the Ksat value `SoilPredictor.predict` hands back to
callers is clamped into [1, 300]. -/
theorem claim6_served_ksat_clamped (model : FeatureVector → ℚ) (apiCrash : Bool)
    (resp : SoilProperty → UpstreamOutcome) :
    1 ≤ (SoilPredictor.predict model apiCrash resp).ksat ∧
    (SoilPredictor.predict model apiCrash resp).ksat ≤ 300 :=
  ⟨le_max_left 1 _, max_le (by norm_num) (min_le_left 300 _)⟩

/-- The infiltration tier of `format_soil_analysis`, as a rank. -/
theorem Utils.format_rank_eq (k : ℚ) (tc : String) :
    tierRank (Utils.format_soil_analysis k tc).infiltration_rate =
      if k > 100 then 3 else if k > 50 then 2 else if k > 20 then 1 else 0 := by
  unfold Utils.format_soil_analysis
  split_ifs <;> rfl

/-- The infiltration tier of `_analyze_soil`, as a rank. -/
theorem SoilPredictor.analyze_rank_eq (k : ℚ) (sd : SoilPredictor.SoilData) :
    tierRank (SoilPredictor.analyzeSoil k sd).infiltrationCategory =
      if k > 100 then 3 else if k > 50 then 2 else if k > 20 then 1 else 0 := by
  dsimp only [SoilPredictor.analyzeSoil]
  split_ifs <;> rfl

/-- The threshold ladder (>100, >50, >20) is monotone. -/
theorem ladder_mono (k1 k2 : ℚ) (h : k1 ≤ k2) :
    (if k1 > 100 then 3 else if k1 > 50 then 2 else if k1 > 20 then 1 else 0 : ℕ) ≤
      (if k2 > 100 then 3 else if k2 > 50 then 2 else if k2 > 20 then 1 else 0) := by
  split_ifs <;> first | omega | (exfalso; linarith)

/-- Claim C8: raising the Ksat value never lowers the infiltration
tier (Very Low < Low < Moderate < High) in either annotator
implementation. -/
theorem claim8_infiltration_monotone (k1 k2 : ℚ) (h : k1 ≤ k2) (tc : String)
    (sd1 sd2 : SoilPredictor.SoilData) :
    tierRank (Utils.format_soil_analysis k1 tc).infiltration_rate ≤
      tierRank (Utils.format_soil_analysis k2 tc).infiltration_rate ∧
    tierRank (SoilPredictor.analyzeSoil k1 sd1).infiltrationCategory ≤
      tierRank (SoilPredictor.analyzeSoil k2 sd2).infiltrationCategory := by
  constructor
  · rw [Utils.format_rank_eq, Utils.format_rank_eq]
    exact ladder_mono k1 k2 h
  · rw [SoilPredictor.analyze_rank_eq, SoilPredictor.analyze_rank_eq]
    exact ladder_mono k1 k2 h

/-- Claim C8 witness: the tier at Ksat 10 is at most the tier at Ksat
120, in both annotators. -/
theorem claim8_witness :
    tierRank (Utils.format_soil_analysis 10 "SAND").infiltration_rate ≤
      tierRank (Utils.format_soil_analysis 120 "SAND").infiltration_rate ∧
    tierRank (SoilPredictor.analyzeSoil 10 ⟨25, 35, 40, 1, 2⟩).infiltrationCategory ≤
      tierRank (SoilPredictor.analyzeSoil 120 ⟨25, 35, 40, 1, 2⟩).infiltrationCategory :=
  claim8_infiltration_monotone 10 120 (by norm_num) "SAND" ⟨25, 35, 40, 1, 2⟩ ⟨25, 35, 40, 1, 2⟩

end Drop2Smart

namespace Drop2Smart

/-- An upstream interaction in which the request for `sand` comes back
HTTP 200 with a null mean while the other three properties succeed:
the failing input of claim C2. -/
def respSandNull : SoilProperty → UpstreamOutcome
  | .sand => .nullMean
  | .silt => .ok 340
  | .clay => .ok 260
  | .ocd => .ok 20

/-- Claim C2 evaluation: on the prediction path
(`SoilPredictor.get_soil_properties`) every per-field failure mode —
null mean, malformed body, non-200 status — substitutes 0, not the
documented default; with the sand request failing and the others
succeeding, the prediction path records sand=0 (per-field isolation,
but the wrong substitute) while `utils.get_soil_properties`, which is
not on the prediction path, records the documented default 400. -/
theorem claim2_prediction_fetch_zero_fallback :
    (SoilPredictor.fieldResult .nullMean = 0 ∧
     SoilPredictor.fieldResult .malformed = 0 ∧
     ∀ st : ℕ, SoilPredictor.fieldResult (.httpFailure st) = 0) ∧
    (∀ p : SoilProperty,
      Utils.get_soil_properties false (fun _ => .nullMean) p =
        Utils.get_default_value p.name) ∧
    (SoilPredictor.getSoilProperties false respSandNull .sand = 0 ∧
     Utils.get_default_value "sand" = 400 ∧
     SoilPredictor.getSoilProperties false respSandNull .silt = 340 ∧
     SoilPredictor.getSoilProperties false respSandNull .clay = 260 ∧
     SoilPredictor.getSoilProperties false respSandNull .ocd = 20 ∧
     Utils.get_soil_properties false respSandNull .sand = 400 ∧
     SoilPredictor.getSoilProperties true respSandNull .sand = 400) :=
  ⟨⟨rfl, rfl, fun _ => rfl⟩,
   fun p => by cases p <;> rfl,
   rfl, rfl, rfl, rfl, rfl, rfl, rfl⟩

/-- Claim C7: the synthetic data generator is a deterministic function
of the sample count and the seeded random stream — two runs over
streams that agree on the draws actually consumed (the first
`n_samples` of each kind) produce identical sample lists, features and
Ksat included. -/
theorem claim7_generator_reproducible (n : ℕ)
    (r1 r2 : KsatModelTrainer.RandomStream) (h : ∀ i < n, r1 i = r2 i) :
    KsatModelTrainer.generateSyntheticData n r1 =
      KsatModelTrainer.generateSyntheticData n r2 := by
  unfold KsatModelTrainer.generateSyntheticData
  apply List.map_congr_left
  intro i hi
  rw [h i (List.mem_range.mp hi)]

/-- A concrete seeded stream. -/
def rngA : KsatModelTrainer.RandomStream := fun _ => ⟨1/2, 1/3, 1, 0⟩

/-- A second stream, written differently but agreeing with `rngA` on
every draw below 10. -/
def rngB : KsatModelTrainer.RandomStream := fun i =>
  if i < 10 then ⟨1/2, 1/3, 1, 0⟩ else ⟨0, 0, 0, 0⟩

/-- Claim C7 witness: three samples from each of the two agreeing
streams coincide. -/
theorem claim7_witness :
    KsatModelTrainer.generateSyntheticData 3 rngA =
      KsatModelTrainer.generateSyntheticData 3 rngB :=
  claim7_generator_reproducible 3 rngA rngB (fun i hi => by
    have hi10 : i < 10 := by omega
    simp [rngA, rngB, hi10])

/-- Successes and failures of the batch loop partition the items. -/
theorem Main.batchLoop_length {α : Type} (pred : Main.Coord → Except String α) :
    ∀ (cs : List Main.Coord) (start : ℕ),
      (Main.batchLoop pred start cs).1.length +
        (Main.batchLoop pred start cs).2.length = cs.length
  | [], _ => rfl
  | c :: rest, start => by
    have ih := Main.batchLoop_length pred rest (start + 1)
    simp only [Main.batchLoop]
    cases hp : pred c <;> simp only [hp, List.length_cons] <;> omega

/-- Every item of the batch ends up, with its index, in the success
list or the failure list according to its own outcome alone. -/
theorem Main.batchLoop_mem {α : Type} (pred : Main.Coord → Except String α) :
    ∀ (cs : List Main.Coord) (start j : ℕ) (coord : Main.Coord),
      cs[j]? = some coord →
      (∀ r, pred coord = .ok r →
        (start + j, r) ∈ (Main.batchLoop pred start cs).1) ∧
      (∀ e, pred coord = .error e →
        (start + j, e) ∈ (Main.batchLoop pred start cs).2)
  | [], start, j, coord, h => by simp at h
  | c :: rest, start, 0, coord, h => by
    simp only [List.getElem?_cons_zero, Option.some_inj] at h
    subst h
    constructor
    · intro r hr
      simp only [Main.batchLoop, hr]
      simp
    · intro e he
      simp only [Main.batchLoop, he]
      simp
  | c :: rest, start, j + 1, coord, h => by
    simp only [List.getElem?_cons_succ] at h
    have ih := Main.batchLoop_mem pred rest (start + 1) j coord h
    have hsum : start + 1 + j = start + (j + 1) := by omega
    constructor
    · intro r hr
      have hm := ih.1 r hr
      rw [hsum] at hm
      simp only [Main.batchLoop]
      cases hp : pred c <;> simp only [hp] <;>
        first
          | exact hm
          | exact List.mem_cons_of_mem _ hm
    · intro e he
      have hm := ih.2 e he
      rw [hsum] at hm
      simp only [Main.batchLoop]
      cases hp : pred c <;> simp only [hp] <;>
        first
          | exact hm
          | exact List.mem_cons_of_mem _ hm

/-- Claim C9: the batch endpoint rejects more than 100 coordinates
with HTTP 400 before predicting anything; on at most 100 it processes
every item independently — each coordinate whose prediction succeeds
is recorded, with its index, among the predictions, each one whose
prediction raises is recorded among the failed predictions without
aborting siblings, and the two aggregates partition the batch. -/
theorem claim9_batch_bounded_isolation {α : Type}
    (pred : Main.Coord → Except String α) (coords : List Main.Coord) :
    (100 < coords.length →
      Main.batchPredictKsat pred coords = Except.error 400) ∧
    (coords.length ≤ 100 →
      ∀ out, Main.batchPredictKsat pred coords = Except.ok out →
        out.summary.total_requested = coords.length ∧
        out.summary.successful_predictions = out.predictions.length ∧
        out.summary.failed_predictions = out.failed_predictions.length ∧
        out.predictions.length + out.failed_predictions.length = coords.length ∧
        (∀ j coord, coords[j]? = some coord →
          (∀ r, pred coord = .ok r → (j, r) ∈ out.predictions) ∧
          (∀ e, pred coord = .error e → (j, e) ∈ out.failed_predictions))) ∧
    (coords.length ≤ 100 →
      Main.batchPredictKsat pred coords ≠ Except.error 400) := by
  refine ⟨?_, ?_, ?_⟩
  · intro h
    unfold Main.batchPredictKsat
    rw [if_pos h]
  · intro hlen out hout
    unfold Main.batchPredictKsat at hout
    rw [if_neg (Nat.not_lt.mpr hlen)] at hout
    cases hout
    refine ⟨rfl, rfl, rfl, Main.batchLoop_length pred coords 0, ?_⟩
    intro j coord hj
    have hm := Main.batchLoop_mem pred coords 0 j coord hj
    constructor
    · intro r hr
      have := hm.1 r hr
      simpa using this
    · intro e he
      have := hm.2 e he
      simpa using this
  · intro hlen
    unfold Main.batchPredictKsat
    rw [if_neg (Nat.not_lt.mpr hlen)]
    exact fun h => Except.noConfusion h

/-- A concrete per-item predictor: succeeds on positive latitude,
raises otherwise. -/
def predW : Main.Coord → Except String ℚ := fun coord =>
  if coord.latitude > 0 then .ok 42 else .error "SoilGrids API error"

/-- A concrete two-item batch: one success, one failure. -/
def coordsW : List Main.Coord := [⟨1, 77⟩, ⟨-1, 151⟩]

/-- Claim C9 witness: a batch of 101 copies is rejected with 400,
while in the two-item batch the first item succeeds into the
predictions list and the second fails into the failed list without
aborting the first. -/
theorem claim9_witness :
    Main.batchPredictKsat predW (List.replicate 101 ⟨1, 77⟩) = Except.error 400 ∧
    ((0, (42 : ℚ)) ∈ (Main.batchLoop predW 0 coordsW).1 ∧
     (1, "SoilGrids API error") ∈ (Main.batchLoop predW 0 coordsW).2) := by
  constructor
  · exact (claim9_batch_bounded_isolation predW (List.replicate 101 ⟨1, 77⟩)).1
      (by simp)
  · have h := (claim9_batch_bounded_isolation predW coordsW).2.1 (by norm_num [coordsW])
      { predictions := (Main.batchLoop predW 0 coordsW).1
        failed_predictions := (Main.batchLoop predW 0 coordsW).2
        summary :=
          { total_requested := coordsW.length
            successful_predictions := (Main.batchLoop predW 0 coordsW).1.length
            failed_predictions := (Main.batchLoop predW 0 coordsW).2.length } }
      rfl
    refine ⟨(h.2.2.2.2 0 ⟨1, 77⟩ rfl).1 42 ?_, (h.2.2.2.2 1 ⟨-1, 151⟩ rfl).2
      "SoilGrids API error" ?_⟩
    · norm_num [predW]
    · norm_num [predW]

end Drop2Smart
